import Mathlib

/-!
Verification of the Mage image container (mcomix/mage.py) against its
specification. The Python module is shallowly embedded below: the mutable
Mage object becomes an explicit state record, property getters and setters
become functions from state to state, and raised exceptions become an
Option Err component of the result. Native resource release (the close
calls on PIL images) is modelled by appending the identifier of the closed
image to a closed log in the state, in the order the closes happen.
-/

/-- A Python value, as far as the embedded code needs one: the rotation
slot and the loop slot of a Mage can hold a value of any type, since the
source stores whatever it is given without validation. -/
inductive PyVal : Type where
  | int (n : Int)
  | str (s : String)
  | tupIV (l : List Int)
  | bool (b : Bool)
  | pnone
deriving DecidableEq, Repr

/-- A raised Python exception, by kind. -/
inductive Err : Type where
  | valueError (msg : String)
  | typeError
  | keyError
  | nameError
  | binasciiError
  | decodeError
deriving DecidableEq, Repr

/-- The declared background of an image format: a color tuple of byte
components, or a plain integer (palette index like). -/
inductive BGDecl : Type where
  | tup (cs : List Nat)
  | intv (n : Int)
deriving DecidableEq, Repr

/-- The info dictionary of a PIL image, restricted to the keys the source
reads: icc_profile, Raw profile type exif, background, loop, and the per
frame duration. Absent keys are none. -/
structure ImgInfo : Type where
  icc : Option (List Nat)
  rawExif : Option String
  background : Option BGDecl
  loop : Option PyVal
  duration : Option Int

/-- A decoded PIL image. The id field stands for object identity (used by
the closed log). getexifFirst is the result of the first im.getexif()
call, with none standing for an AttributeError. reparse models the
retried im.getexif() call after the decoded legacy exif bytes have been
injected into im.info: it maps those bytes to the entries the accessor
would then yield, with none again standing for an AttributeError. -/
structure PImage : Type where
  id : Nat
  size : Int × Int
  format : String
  mode : String
  isAnimated : Bool
  nFrames : Nat
  info : ImgInfo
  getexifFirst : Option (List (Nat × Nat))
  reparse : List Nat → Option (List (Nat × Nat))

/-- Value of a hex digit character, none when the character is not one. -/
def hexVal (ch : Char) : Option Nat :=
  if '0' ≤ ch ∧ ch ≤ '9' then some (ch.toNat - 48)
  else if 'a' ≤ ch ∧ ch ≤ 'f' then some (ch.toNat - 87)
  else if 'A' ≤ ch ∧ ch ≤ 'F' then some (ch.toNat - 55)
  else none

/-- Value of a decimal digit character. -/
def decVal (ch : Char) : Option Nat :=
  if '0' ≤ ch ∧ ch ≤ '9' then some (ch.toNat - 48) else none

/-- Accumulating base 10 parse; none on a non digit. -/
def parseDecAux : List Char → Nat → Option Nat
  | [], acc => some acc
  | ch :: rest, acc =>
    match decVal ch with
    | some d => parseDecAux rest (acc * 10 + d)
    | none => none

/-- Nonempty all digit parse. -/
def parseDecList (l : List Char) : Option Nat :=
  if l = [] then none else parseDecAux l 0

/-- Python int(s) on a string: surrounding whitespace is ignored, one
optional sign, then a nonempty run of decimal digits; anything else is a
ValueError (returned as none here). Digit group underscores are not
modelled, the embedded inputs never carry them. -/
def pyIntOfString (s : String) : Option Int :=
  let l := ((s.data.dropWhile Char.isWhitespace).reverse.dropWhile
    Char.isWhitespace).reverse
  match l with
  | '-' :: rest => (parseDecList rest).map (fun n => -(n : Int))
  | '+' :: rest => (parseDecList rest).map (fun n => (n : Int))
  | rest => (parseDecList rest).map (fun n => (n : Int))

/-- The line break characters of Python str.splitlines: newline, carriage
return, vertical tab, form feed, the file, group and record separator
controls, next line, and the unicode line and paragraph separators. -/
def isLineBreak (c : Char) : Bool :=
  c == '\n' || c == '\r' || c == '\x0B' || c == '\x0C' ||
    c == '\x1C' || c == '\x1D' || c == '\x1E' || c == '\x85' ||
    c == '\u2028' || c == '\u2029'

/-- Helper for pySplitlines: walk the characters, accumulating the current
line reversed; a carriage return followed by a newline counts as a single
break. -/
def pySplitlinesAux : List Char → List Char → List String
  | [], [] => []
  | [], acc => [String.mk acc.reverse]
  | '\r' :: '\n' :: rest, acc =>
    String.mk acc.reverse :: pySplitlinesAux rest []
  | c :: rest, acc =>
    if isLineBreak c then String.mk acc.reverse :: pySplitlinesAux rest []
    else pySplitlinesAux rest (c :: acc)

/-- Python str.splitlines over the universal newline set: the string is
split at every break character of isLineBreak, a carriage return newline
pair is one break, a trailing break does not produce a final empty line,
and the empty string has no lines. -/
def pySplitlines (s : String) : List String :=
  pySplitlinesAux s.data []

/-- binascii.unhexlify on a string: pairs of hex digits become bytes; an
odd length or a non hex character raises binascii.Error. -/
def unhexlify : List Char → Except Err (List Nat)
  | [] => Except.ok []
  | [_] => Except.error Err.binasciiError
  | a :: b :: rest =>
    match hexVal a, hexVal b with
    | some x, some y => (unhexlify rest).map (fun t => (x * 16 + y) :: t)
    | _, _ => Except.error Err.binasciiError

/-- Association list lookup for the exif dictionary. -/
def lookupD : List (Nat × Nat) → Nat → Option Nat
  | [], _ => none
  | (k2, v) :: rest, k => if k2 = k then some v else lookupD rest k

/-- Python dict.update: keys already present keep their position and take
the new value, new keys are appended. -/
def dictUpdate (old upd : List (Nat × Nat)) : List (Nat × Nat) :=
  old.map (fun p => (p.1, (lookupD upd p.1).getD p.2)) ++
    upd.filter (fun p => (lookupD old p.1).isNone)

/-- mage.py lines 18 to 46, the function _getexif. The first getexif call
is guarded against AttributeError; a nonempty result is returned at once.
Otherwise the legacy block under the key Raw profile type exif is split
into lines; failure to obtain at least three lines is swallowed by the
bare except and yields the empty mapping, as does a second line other
than exif and a decoded length different from the declared size. The
unhexlify call and the int call on the size line sit outside any try, so
their failures escape as exceptions. On full success the decoded bytes
are injected and the accessor retried (the reparse field). -/
def _getexif (im : PImage) : Except Err (List (Nat × Nat)) :=
  let exif := (im.getexifFirst).getD []
  if exif ≠ [] then Except.ok exif
  else
    match im.info.rawExif with
    | none => Except.ok []
    | some s =>
      match pySplitlines s with
      | _l1 :: l2 :: sz :: lines =>
        if l2 ≠ "exif" then Except.ok []
        else
          match unhexlify ((lines.map String.data).flatten) with
          | Except.error e => Except.error e
          | Except.ok data =>
            match pyIntOfString sz with
            | none => Except.error (Err.valueError "invalid literal for int")
            | some n =>
              if (data.length : Int) ≠ n then Except.ok []
              else Except.ok ((im.reparse data).getD [])
      | _ => Except.ok []

/-- The state of one Mage instance, the fields of Mage.__init__ in order,
plus the closed log recording every close call on a PIL image (by image
id, chronological). -/
structure Mage : Type where
  im : Option PImage
  frames : List (PImage × Int)
  loop : PyVal
  bgcolor : Int
  icc : Option (List Nat)
  exif : List (Nat × Nat)
  cache : Option PImage
  cacheFrames : List (PImage × Int)
  bg : Int
  rotation : PyVal
  filter : Option PyVal
  size : Option (Int × Int)
  thumbnail : Option PImage
  closed : List Nat

/-- A freshly constructed Mage (Mage.__init__). -/
def mageInit : Mage :=
  { im := none, frames := [], loop := PyVal.bool false, bgcolor := 0,
    icc := none, exif := [], cache := none, cacheFrames := [], bg := 0,
    rotation := PyVal.int 0, filter := none, size := none,
    thumbnail := none, closed := [] }

/-- The image property getter, lines 94 to 99: ValueError when nothing is
loaded. -/
def image_get (s : Mage) : Except Err PImage :=
  match s.im with
  | none => Except.error (Err.valueError "image is not loaded")
  | some im => Except.ok im

/-- purge_frames, lines 124 to 128: pop and close until the list is empty.
list.pop removes from the end, so the frames close in reverse order. -/
def purge_frames (s : Mage) : Mage :=
  { s with frames := [],
           closed := s.closed ++ (s.frames.map (fun p => p.1.id)).reverse }

/-- add_frame, lines 121 to 122. -/
def add_frame (s : Mage) (f : PImage) (d : Int) : Mage :=
  { s with frames := s.frames ++ [(f, d)] }

/-- The guarded block of the image setter, lines 104 to 109: when an
image is already held, drop the reference, close it, clear the exif
mapping and purge the original frames. -/
def close_old (s : Mage) : Mage :=
  match s.im with
  | none => s
  | some old =>
    purge_frames { s with im := none, exif := [],
                          closed := s.closed ++ [old.id] }

/-- The image property setter, lines 101 to 114: close the previous image
and its frames if any, store the new image, reset the background color,
take the icc profile, merge the extracted exif, record the size. An
exception out of _getexif escapes after the image, background color and
icc fields were already written. -/
def set_image (s : Mage) (im : PImage) : Mage × Option Err :=
  let s1 := close_old s
  let s2 := { s1 with im := some im, bgcolor := 0, icc := im.info.icc }
  match _getexif im with
  | Except.error e => (s2, some e)
  | Except.ok ex =>
    ({ s2 with exif := dictUpdate s2.exif ex, size := some im.size }, none)

/-- purge_cache, lines 140 to 148: only when a cached image is present is
it closed, and only then are the cached frames popped and closed (in
reverse order, pop removes from the end). With no cached image the whole
body is skipped. -/
def purge_cache (s : Mage) : Mage :=
  match s.cache with
  | none => s
  | some c =>
    { s with cache := none, cacheFrames := [],
             closed := s.closed ++ [c.id] ++
               (s.cacheFrames.map (fun p => p.1.id)).reverse }

/-- The rotation property getter, lines 167 to 170. -/
def rotation_get (s : Mage) : PyVal :=
  s.rotation

/-- The rotation property setter, lines 172 to 176: purge the cache when
the value differs from the current one, then store the given value
unchanged, whatever it is. -/
def set_rotation (s : Mage) (v : PyVal) : Mage :=
  let s1 := if v ≠ s.rotation then purge_cache s else s
  { s1 with rotation := v }

/-- Assignment through the size property, lines 160 to 165. The source
declares the setter as def size(self, width, height); the Python property
protocol calls the setter with exactly one value argument, so every
assignment to the property raises TypeError (missing positional argument
height) before the body can run. -/
def size_assign (s : Mage) (_v : PyVal) : Mage × Option Err :=
  (s, some Err.typeError)

/-- The body the size setter would run if it could be called with a width
and a height, lines 163 to 165: tuple(self dot size) raises TypeError
when the stored size is still None; otherwise purge the cache when the
pair differs from the stored one, then store the pair. -/
def size_setter_body (s : Mage) (width height : Int) : Mage × Option Err :=
  match s.size with
  | none => (s, some Err.typeError)
  | some (w, h) =>
    let s1 := if (w, h) ≠ (width, height) then purge_cache s else s
    ({ s1 with size := some (width, height) }, none)

/-- The GdkPixbuf decode results available to _load_fallback: asPil is
_pixbuf2pil of the loaded pixbuf, staticPil is _pixbuf2pil of its static
image. -/
structure PixbufModel : Type where
  asPil : PImage
  staticPil : PImage

/-- The external decoder results for one input byte string: pil is the
result of Image.open plus load (none when PIL raises), fallbackPixbuf is
the GdkPixbuf decode (none when it raises). -/
structure LoadEnv : Type where
  pil : Option PImage
  fallbackPixbuf : Option PixbufModel

/-- _load_fallback, lines 178 to 198. A GdkPixbuf decode failure escapes
to the caller. Without animation, or with fewer than two frames, the
decoded pixbuf becomes the image. On the animated path the static image
is assigned first; the next statement, line 189, evaluates the name GLib,
which the module never imports, so the path always raises NameError after
that partial mutation and lines 190 to 198 are unreachable. This helper
is the body run once the pixbuf has been decoded. -/
def load_fallback_pb (s : Mage) (pb : PixbufModel) (animation : Bool)
    (n_frames : Nat) : Mage × Option Err :=
  if animation = false ∨ n_frames < 2 then set_image s pb.asPil
  else
    match set_image s pb.staticPil with
    | (s1, some e) => (s1, some e)
    | (s1, none) => (s1, some Err.nameError)

/-- _load_fallback entry: a GdkPixbuf decode failure escapes to the
caller; otherwise the body above runs on the decoded pixbuf. -/
def load_fallback (s : Mage) (env : LoadEnv) (animation : Bool)
    (n_frames : Nat) : Mage × Option Err :=
  match env.fallbackPixbuf with
  | none => (s, some Err.decodeError)
  | some pb => load_fallback_pb s pb animation n_frames

/-- Line 225: the loop flag is read with item access, so a missing loop
key raises KeyError. -/
def loadLoop (s : Mage) (im : PImage) : Mage × Option Err :=
  match im.info.loop with
  | none => (s, some Err.keyError)
  | some v => ({ s with loop := v }, none)

/-- Exception propagating sequencing of two mutating steps. -/
def bindE : Mage × Option Err → (Mage → Mage × Option Err) → Mage × Option Err
  | (s, some e), _ => (s, some e)
  | (s, none), f => f s

/-- load, lines 200 to 225. A PIL decode failure goes to the fallback with
animation disabled. A static or animation disabled decode is assigned to
the image property and load returns. An animated decode dispatches on the
palette GIF special case to the animated fallback; on the other animated
branch the loop header of line 217 evaluates the name ImageSequence,
which the module never imports, so that branch raises NameError before
any frame is touched and lines 218 to 224 (frame loop and background
handling) are unreachable. Either animated branch falls through to the
loop flag read of line 225 only when it returns without raising. -/
def load (s : Mage) (env : LoadEnv) (enable_anime : Bool) :
    Mage × Option Err :=
  match env.pil with
  | none => load_fallback s env false 1
  | some im =>
    if enable_anime && im.isAnimated then
      bindE
        (if im.format = "GIF" ∧ im.mode = "P" then
          load_fallback s env true im.nFrames
        else (s, some Err.nameError))
        (fun s1 => loadLoop s1 im)
    else set_image s im

/-- Modelled from the spec: the dimensions of the derived bitmap after the
rotation step, which swaps width and height at 90 and 270 degrees. The
source body of the cache property is a NotImplementedError stub. -/
def rotatedSize (rot : PyVal) (sz : Int × Int) : Int × Int :=
  if rot = PyVal.int 90 ∨ rot = PyVal.int 270 then (sz.2, sz.1) else sz

/-- Modelled from the spec: the synthesis of one derived bitmap from a
source bitmap, rotated by the rotation parameter, resampled to the target
size when one is set, composited on the cache background. The source body
of the cache property is a NotImplementedError stub, so the synthesis is
represented by the bitmap it produces: a fresh image of the transformed
dimensions derived from the source one. -/
def renderCache (im : PImage) (rot : PyVal) (tsize : Option (Int × Int))
    (bg : Int) : PImage :=
  { im with size := tsize.getD (rotatedSize rot im.size),
            info := { im.info with background := some (BGDecl.intv bg) } }

/-- Modelled from the spec: the read contract of the cache property (the
source body is a NotImplementedError stub). Raise the not loaded error if
no original is held; return the cached bitmap when present; otherwise
synthesize the derived bitmap and the derived frames from the original
layer and store them before returning. -/
def get_cache (s : Mage) : Except Err PImage × Mage :=
  match s.im with
  | none => (Except.error (Err.valueError "image is not loaded"), s)
  | some im =>
    match s.cache with
    | some c => (Except.ok c, s)
    | none =>
      let c := renderCache im s.rotation s.size s.bg
      let cfs := s.frames.map
        (fun p => (renderCache p.1 s.rotation s.size s.bg, p.2))
      (Except.ok c, { s with cache := some c, cacheFrames := cfs })

/-- An info dictionary with none of the keys the source reads. -/
def infoNone : ImgInfo :=
  { icc := none, rawExif := none, background := none,
    loop := none, duration := none }

/-- A benign PIL image with the given id: no metadata at all, so _getexif
returns the empty mapping without touching the reparse field. -/
def mkImg (i : Nat) : PImage :=
  { id := i, size := (10, 20), format := "PNG", mode := "RGB",
    isAnimated := false, nFrames := 1, info := infoNone,
    getexifFirst := some [], reparse := fun _ => none }

/-- Previously loaded original held by the example state stateC1. -/
def imgOld : PImage := mkImg 1

/-- Derived cached bitmap held by the example state stateC1. -/
def imgCache : PImage := mkImg 2

/-- Derived cached frame held by the example state stateC1. -/
def imgCF : PImage := mkImg 3

/-- Replacement original assigned in the C1 scenario. -/
def imgNew : PImage := mkImg 4

/-- A Mage holding an original image together with a populated derived
cache layer. -/
def stateC1 : Mage :=
  { mageInit with im := some imgOld, cache := some imgCache,
                  cacheFrames := [(imgCF, 5)] }

/-- An animated non palette GIF example image: two frames, a loop flag,
and a declared background color tuple. -/
def imAnim : PImage :=
  { mkImg 9 with
    isAnimated := true
    nFrames := 2
    info := { infoNone with
              loop := some (PyVal.int 0)
              background := some (BGDecl.tup [17, 34, 51]) } }

/-- Decoder results for the example animated load. -/
def envAnim : LoadEnv :=
  { pil := some imAnim, fallbackPixbuf := none }

/-- An animated example image used for the animation disabled load. -/
def imAnim2 : PImage := { mkImg 12 with isAnimated := true, nFrames := 3 }

/-- Decoder results for the animation disabled load. -/
def envStatic : LoadEnv :=
  { pil := some imAnim2, fallbackPixbuf := none }

/-- Image whose first getexif call yields one entry. -/
def imW1 : PImage := { mkImg 31 with getexifFirst := some [(274, 1)] }

/-- Image with no native exif and no legacy block. -/
def imW2 : PImage := mkImg 32

/-- Image whose legacy block has fewer than three lines. -/
def imW3 : PImage :=
  { mkImg 33 with info := { infoNone with rawExif := some "onlyoneline" } }

/-- Image whose legacy block carries a wrong second header line. -/
def imW4 : PImage :=
  { mkImg 34 with
    info := { infoNone with rawExif := some "h\nnotexif\n4\nabcd" } }

/-- Image whose legacy block decodes to a length different from the
declared size. -/
def imW5 : PImage :=
  { mkImg 35 with
    info := { infoNone with rawExif := some "h\nexif\n5\nabcd" } }

/-- Image whose legacy block carries a non hexadecimal payload under a
well formed header. -/
def imW6 : PImage :=
  { mkImg 36 with
    info := { infoNone with rawExif := some "p\nexif\n1\nzz" } }

/-- A Mage with no cached image but a nonempty cached frame list. -/
def w10 : Mage := { mageInit with cacheFrames := [(mkImg 8, 30)] }

/-! ## Helper lemmas -/

theorem set_image_cache (s : Mage) (im : PImage) :
    (set_image s im).1.cache = s.cache ∧
      (set_image s im).1.cacheFrames = s.cacheFrames := by
  simp only [set_image, close_old]
  rcases hg : _getexif im with e | ex <;> rcases hsim : s.im with _ | old <;>
    simp [hg, hsim, purge_frames]

theorem set_image_im (s : Mage) (im : PImage) :
    (set_image s im).1.im = some im := by
  simp only [set_image, close_old]
  rcases hg : _getexif im with e | ex <;> rcases hsim : s.im with _ | old <;>
    simp [hg, hsim, purge_frames]

theorem set_image_frames (s : Mage) (im : PImage)
    (hinv : s.im = none → s.frames = []) :
    (set_image s im).1.frames = [] := by
  simp only [set_image, close_old]
  rcases hsim : s.im with _ | old
  · rcases hg : _getexif im with e | ex <;>
      simp [hg, hsim, purge_frames, hinv hsim]
  · rcases hg : _getexif im with e | ex <;> simp [hg, hsim, purge_frames]

theorem set_image_closed (s : Mage) (im old : PImage) (h : s.im = some old) :
    old.id ∈ (set_image s im).1.closed := by
  simp only [set_image, close_old]
  rcases hg : _getexif im with e | ex <;>
    simp [hg, h, purge_frames, List.mem_append]

theorem load_fallback_pb_anim_err (s : Mage) (pb : PixbufModel)
    (n_frames : Nat) (hn : 2 ≤ n_frames) :
    (load_fallback_pb s pb true n_frames).2 ≠ none := by
  unfold load_fallback_pb
  have hc : ¬(true = false ∨ n_frames < 2) := by
    rintro (h | h)
    · exact absurd h (by decide)
    · omega
  rw [if_neg hc]
  rcases hsi : set_image s pb.staticPil with ⟨s1, e⟩
  cases e <;> simp

theorem load_fallback_anim_err (s : Mage) (env : LoadEnv) (n_frames : Nat)
    (hn : 2 ≤ n_frames) : (load_fallback s env true n_frames).2 ≠ none := by
  unfold load_fallback
  rcases env.fallbackPixbuf with _ | pb
  · simp
  · exact load_fallback_pb_anim_err s pb n_frames hn

/-! ## Claim theorems -/

/-- C1 amended: assignment through the image setter closes the previous
original, clears the exif mapping and purges the original frames, but
leaves the derived cache untouched: the cache and cacheFrames fields are
exactly what they were and no purge of the derived layer takes place. -/
theorem claim_C1_thm (s : Mage) (im old : PImage) (h : s.im = some old) :
    (set_image s im).1.cache = s.cache ∧
      (set_image s im).1.cacheFrames = s.cacheFrames ∧
      old.id ∈ (set_image s im).1.closed ∧
      (set_image s im).1.frames = [] := by
  have hc := set_image_cache s im
  have hinv : s.im = none → s.frames = [] := by
    intro hn
    rw [hn] at h
    exact absurd h (by simp)
  exact ⟨hc.1, hc.2, set_image_closed s im old h,
    set_image_frames s im hinv⟩

/-- C1 witness: the amended statement at a concrete loaded state that
holds a populated derived cache. -/
theorem claim_C1_thm_witness :
    (set_image stateC1 imgNew).1.cache = stateC1.cache ∧
      (set_image stateC1 imgNew).1.cacheFrames = stateC1.cacheFrames ∧
      imgOld.id ∈ (set_image stateC1 imgNew).1.closed ∧
      (set_image stateC1 imgNew).1.frames = [] :=
  claim_C1_thm stateC1 imgNew imgOld rfl

/-- C1 counterexample: on a state holding a cached bitmap and a cached
frame, assignment through the image setter leaves both exactly in place
and closes only the previous original, releasing no cache resource, so
the setter does not purge the derived cache. -/
theorem claim_C1_cex :
    (set_image stateC1 imgNew).1.cache = some imgCache ∧
      (set_image stateC1 imgNew).1.cacheFrames = [(imgCF, 5)] ∧
      (set_image stateC1 imgNew).1.closed = [1] := by
  exact ⟨rfl, rfl, rfl⟩

/-- C2: every assignment to the size property raises TypeError and leaves
the state unchanged, because the source declares the property setter with
two value parameters while the Python property protocol passes exactly
one; the compare and purge body of lines 163 to 165 never runs. -/
theorem claim_C2_thm : ∀ (s : Mage) (v : PyVal),
    size_assign s v = (s, some Err.typeError) :=
  fun _ _ => rfl

/-- C3: reading the cache on a Mage with no original loaded fails with the
not loaded ValueError and returns the state unchanged, with no partial
mutation. The cache property body in the source is a NotImplementedError
stub, so the read contract here is the one modelled from the spec. -/
theorem claim_C3_thm (s : Mage) (h : s.im = none) :
    get_cache s = (Except.error (Err.valueError "image is not loaded"), s) := by
  unfold get_cache
  rw [h]

/-- C3 witness: the not loaded failure on a freshly constructed Mage. -/
theorem claim_C3_thm_witness :
    get_cache mageInit =
      (Except.error (Err.valueError "image is not loaded"), mageInit) :=
  claim_C3_thm mageInit rfl

/-- C6: accessing the image property with no original loaded fails with
the explicit not loaded ValueError rather than yielding any image. -/
theorem claim_C6_thm (s : Mage) (h : s.im = none) :
    image_get s = Except.error (Err.valueError "image is not loaded") := by
  unfold image_get
  rw [h]

/-- C6 witness: the not loaded failure on a freshly constructed Mage. -/
theorem claim_C6_thm_witness :
    image_get mageInit = Except.error (Err.valueError "image is not loaded") :=
  claim_C6_thm mageInit rfl

/-- C9: the rotation setter stores any value unchanged, with no rejection,
no exception and no normalization, so a subsequent read of the rotation
property returns exactly the assigned value; PyVal covers non integer
values as well. -/
theorem claim_C9_thm : ∀ (s : Mage) (v : PyVal),
    rotation_get (set_rotation s v) = v :=
  fun _ _ => rfl

/-- C10: purge_cache on a state with no cached image is a no-op on the
cached frames and on the closed log: cached frames are released only when
a cached image is simultaneously present. -/
theorem claim_C10_thm (s : Mage) (h : s.cache = none) :
    (purge_cache s).cacheFrames = s.cacheFrames ∧
      (purge_cache s).closed = s.closed := by
  unfold purge_cache
  rw [h]
  exact ⟨rfl, rfl⟩

/-- C10 witness: a state with no cached image but a nonempty cached frame
list keeps its cached frames and releases nothing. -/
theorem claim_C10_thm_witness :
    (purge_cache w10).cacheFrames = w10.cacheFrames ∧
      (purge_cache w10).closed = w10.closed :=
  claim_C10_thm w10 rfl

/-- C5: loading an animated source with animation disabled assigns the
decoded image itself to the image property and leaves the frame list
empty, even though the source has multiple frames. -/
theorem claim_C5_thm (s : Mage) (env : LoadEnv) (im : PImage)
    (hp : env.pil = some im) (_ha : im.isAnimated = true)
    (hinv : s.im = none → s.frames = []) :
    (load s env false).1.im = some im ∧ (load s env false).1.frames = [] := by
  have hload : load s env false = set_image s im := by
    unfold load
    rw [hp]
    simp
  rw [hload]
  exact ⟨set_image_im s im, set_image_frames s im hinv⟩

/-- C5 witness: the animation disabled load of the concrete animated
example image yields a single frame result. -/
theorem claim_C5_thm_witness :
    (load mageInit envStatic false).1.im = some imAnim2 ∧
      (load mageInit envStatic false).1.frames = [] :=
  claim_C5_thm mageInit envStatic imAnim2 rfl rfl (fun _ => rfl)

/-- C4 evaluated on the code: on the animated branch with animation
enabled that does not dispatch to the palette GIF fallback, the name
ImageSequence of line 217 is never imported, so load raises NameError
with the state unchanged: no frame is ever iterated, the first frame is
not assigned to the original and nothing is appended to frames,
contradicting the claimed (and clearly intended) iteration. -/
theorem claim_C4_thm (s : Mage) (env : LoadEnv) (im : PImage)
    (hp : env.pil = some im) (ha : im.isAnimated = true)
    (hg : ¬(im.format = "GIF" ∧ im.mode = "P")) :
    load s env true = (s, some Err.nameError) := by
  unfold load
  rw [hp]
  simp [ha, hg, bindE]

/-- C4 witness: the concrete animated non palette load raises NameError
and leaves the fresh state untouched. -/
theorem claim_C4_thm_witness :
    load mageInit envAnim true = (mageInit, some Err.nameError) :=
  claim_C4_thm mageInit envAnim imAnim rfl rfl (by decide)

/-- C8 evaluated on the code: no load of an animated image with
animation enabled ever completes (animated sources have at least two
frames, as PIL guarantees), so the background recording of lines 221 to
224 is unreachable: the palette GIF fallback always raises, and the
other animated branch raises NameError on the unimported name
ImageSequence of line 217 before lines 221 to 224, leaving the state,
and in particular the background color, untouched. -/
theorem claim_C8_thm (s : Mage) (env : LoadEnv) (im : PImage)
    (hp : env.pil = some im) (ha : im.isAnimated = true)
    (hn : 2 ≤ im.nFrames) :
    (load s env true).2 ≠ none ∧
      (¬(im.format = "GIF" ∧ im.mode = "P") →
        load s env true = (s, some Err.nameError)) := by
  by_cases hgp : im.format = "GIF" ∧ im.mode = "P"
  · have hload2 : load s env true =
        bindE (load_fallback s env true im.nFrames)
          (fun s1 => loadLoop s1 im) := by
      unfold load
      rw [hp]
      simp [ha, hgp]
    have herr := load_fallback_anim_err s env im.nFrames hn
    constructor
    · rw [hload2]
      rcases hfe : load_fallback s env true im.nFrames with ⟨s1, e1⟩
      rw [hfe] at herr
      cases e1 with
      | none => exact absurd rfl herr
      | some e => simp [bindE]
    · intro h
      exact absurd hgp h
  · have hload : load s env true = (s, some Err.nameError) := by
      unfold load
      rw [hp]
      simp [ha, hgp, bindE]
    rw [hload]
    exact ⟨by simp, fun _ => rfl⟩

/-- C8 witness: the concrete animated load raises, so it never records
the declared background. -/
theorem claim_C8_thm_witness :
    (load mageInit envAnim true).2 ≠ none ∧
      (¬(imAnim.format = "GIF" ∧ imAnim.mode = "P") →
        load mageInit envAnim true = (mageInit, some Err.nameError)) :=
  claim_C8_thm mageInit envAnim imAnim rfl rfl (by decide)

/-- C7 amended: metadata extraction returns the nonempty native exif
entries when the first accessor call yields them; it returns the empty
mapping without an exception when the legacy block is absent, when it
does not split into at least three lines, when its second line is not
exif, and when a successfully decoded payload has a length different
from the declared size. The two remaining malformed block shapes, a non
hexadecimal payload and a non numeric size line, are the exception
raising cases recorded by the counterexample. -/
theorem claim_C7_thm :
    (∀ im l, im.getexifFirst = some l → l ≠ [] →
        _getexif im = Except.ok l) ∧
      (∀ im, im.getexifFirst.getD [] = [] → im.info.rawExif = none →
        _getexif im = Except.ok []) ∧
      (∀ im s, im.getexifFirst.getD [] = [] → im.info.rawExif = some s →
        (pySplitlines s).length < 3 → _getexif im = Except.ok []) ∧
      (∀ im s l1 l2 sz rest, im.getexifFirst.getD [] = [] →
        im.info.rawExif = some s →
        pySplitlines s = l1 :: l2 :: sz :: rest → l2 ≠ "exif" →
        _getexif im = Except.ok []) ∧
      (∀ im s l1 sz rest bytes n, im.getexifFirst.getD [] = [] →
        im.info.rawExif = some s →
        pySplitlines s = l1 :: "exif" :: sz :: rest →
        unhexlify ((rest.map String.data).flatten) = Except.ok bytes →
        pyIntOfString sz = some n → (bytes.length : Int) ≠ n →
        _getexif im = Except.ok []) := by
  refine ⟨?_, ?_, ?_, ?_, ?_⟩
  · intro im l h1 h2
    unfold _getexif
    rw [h1]
    simp [h2]
  · intro im h1 h2
    unfold _getexif
    simp [h1, h2]
  · intro im s h1 h2 h3
    unfold _getexif
    simp only [h1, h2, ne_eq, not_true_eq_false, if_false]
    generalize hsp : pySplitlines s = L at h3
    rcases L with _ | ⟨a, _ | ⟨b, _ | ⟨c, rest⟩⟩⟩
    · rfl
    · rfl
    · rfl
    · exfalso
      simp only [List.length_cons] at h3
      omega
  · intro im s l1 l2 sz rest h1 h2 hsp hne
    unfold _getexif
    simp [h1, h2, hsp, hne]
  · intro im s l1 sz rest bytes n h1 h2 hsp hux hint hlen
    unfold _getexif
    simp [h1, h2, hsp, hux, hint, hlen]

/-- C7 witness: the amended statement at concrete images for each of the
five cases: native entries present, no legacy block, a one line block, a
wrong second line, and a declared size that does not match the decoded
payload length. -/
theorem claim_C7_thm_witness :
    _getexif imW1 = Except.ok [(274, 1)] ∧ _getexif imW2 = Except.ok [] ∧
      _getexif imW3 = Except.ok [] ∧ _getexif imW4 = Except.ok [] ∧
      _getexif imW5 = Except.ok [] :=
  ⟨claim_C7_thm.1 imW1 [(274, 1)] rfl (by decide),
    claim_C7_thm.2.1 imW2 rfl rfl,
    claim_C7_thm.2.2.1 imW3 "onlyoneline" rfl rfl (by decide),
    claim_C7_thm.2.2.2.1 imW4 "h\nnotexif\n4\nabcd" "h" "notexif" "4"
      ["abcd"] rfl rfl (by decide) (by decide),
    claim_C7_thm.2.2.2.2 imW5 "h\nexif\n5\nabcd" "h" "5" ["abcd"]
      [171, 205] 5 rfl rfl (by decide) rfl rfl (by decide)⟩

/-- C7 counterexample: a legacy block whose header is well formed but
whose payload is not valid hexadecimal makes _getexif raise, so the claim
that malformed legacy blocks never propagate an exception is false. -/
theorem claim_C7_cex : _getexif imW6 = Except.error Err.binasciiError := rfl
